import Mathlib

/-!
Verification of the Google Chat MCP server's request-mediation layer.

The TypeScript source is embedded shallowly:

* JS strings appearing in the rendering pipeline are modelled as `List Char`
  (named `Str`); `String.length` / `substring(0, n)` become `List.length` /
  `List.take n`.  (JS measures UTF-16 code units; the claims under study are
  insensitive to that distinction, which only renames what a "character" is.)
* `undefined` becomes `Option.none`; JS truthiness tests on optional strings
  (`if (x)`, `x || y`, `!!x`) are modelled by `jsTruthy` / `jsOrStr`, under
  which both `undefined` and the empty string are falsy, exactly as in JS.
* The error classifier and credential resolution, which never do length
  arithmetic, use Lean `String` directly.
* Fallible operations are explicit: tool handlers take the dispatch outcome
  as an `Except` value, and credential resolution returns an `InitResult`.
-/

namespace GoogleChat

/-- JS strings in the rendering pipeline, modelled as character lists. -/
abbrev Str := List Char

/-- Embed a Lean string literal as a `Str`. -/
def str (x : String) : Str := x.data

/-- JS truthiness of a possibly-`undefined` string value:
`undefined` and `""` are falsy, every other string is truthy. -/
def jsTruthy (a : Option Str) : Bool :=
  match a with
  | some v => if v = [] then false else true
  | none => false

/-- JS `a || b` on a possibly-`undefined` string `a` with string fallback `b`. -/
def jsOrStr (a : Option Str) (b : Str) : Str :=
  match a with
  | some v => if v = [] then b else v
  | none => b

/-- JS `array.join(sep)`. -/
def joinSep (sep : Str) : List Str → Str
  | [] => []
  | [l] => l
  | l :: l' :: ls => l ++ sep ++ joinSep sep (l' :: ls)

/-- JS `lines.join("\n")`, the assembly step of every markdown formatter. -/
def joinLines (lines : List Str) : Str := joinSep (str "\n") lines

/-! ## constants.ts -/

/-- `CHARACTER_LIMIT` from constants.ts. -/
def CHARACTER_LIMIT : Nat := 25000

/-- The fixed notice `truncateResponse` appends after the hard cut. -/
def truncationNotice : Str :=
  str "\n\n---\n*Response truncated due to size limit. Use pagination to see more results.*"

/-- `truncateResponse` from formatters.ts: return `text` unchanged when within
the limit, otherwise hard-cut to `CHARACTER_LIMIT - 100` characters and append
the fixed truncation notice. -/
def truncateResponse (text : Str) : Str :=
  if text.length ≤ CHARACTER_LIMIT then text
  else text.take (CHARACTER_LIMIT - 100) ++ truncationNotice

/-! ## types.ts (the fields the embedded formatters read) -/

/-- `SpaceDetails` from types.ts. -/
structure SpaceDetails where
  description : Option Str
  guidelines : Option Str
deriving DecidableEq

/-- `MembershipCount` from types.ts (the field the formatter reads). -/
structure MembershipCount where
  joinedDirectHumanUserCount : Option Nat
deriving DecidableEq

/-- `Space` from types.ts (the fields the embedded formatters read). -/
structure Space where
  name : Str
  type : Option Str
  spaceType : Option Str
  displayName : Option Str
  spaceDetails : Option SpaceDetails
  membershipCount : Option MembershipCount
  createTime : Option Str
  threaded : Option Bool
  externalUserAllowed : Option Bool
deriving DecidableEq

/-- `User` from types.ts (the fields the embedded formatters read). -/
structure User where
  name : Str
  displayName : Option Str
  type : Option Str
deriving DecidableEq

/-- `Message` from types.ts (the fields the embedded list formatter reads). -/
structure Message where
  name : Str
  sender : Option User
  createTime : Option Str
  text : Option Str
deriving DecidableEq

/-- `Member` from types.ts (the fields the embedded list formatter reads). -/
structure Member where
  name : Str
  state : Option Str
  role : Option Str
  member : Option User
deriving DecidableEq

/-- `CustomEmoji` from types.ts. -/
structure CustomEmoji where
  uid : Option Str
deriving DecidableEq

/-- `Emoji` from types.ts. -/
structure Emoji where
  unicode : Option Str
  customEmoji : Option CustomEmoji
deriving DecidableEq

/-- `Reaction` from types.ts (the fields the embedded formatter reads). -/
structure Reaction where
  name : Str
  user : Option User
  emoji : Option Emoji
deriving DecidableEq

/-! ## formatters.ts -/

/-- The JS optional chain `space.spaceDetails?.description`. -/
def spaceDescription (sp : Space) : Option Str :=
  sp.spaceDetails.bind SpaceDetails.description

/-- The pagination footer line the list formatters push:
`*More results available. Use pageToken: \x60TOK\x60*`. -/
def footerLine (tok : Str) : Str :=
  str "*More results available. Use pageToken: \x60" ++ tok ++ str "\x60*"

/-- The lines pushed by `formatSpace` (markdown branch).  `fmtTime` abstracts
`formatTimestamp`, whose own model appears below with the timestamp claim. -/
def spaceLines (fmtTime : Str → Str) (sp : Space) : List Str :=
  [str "## " ++ jsOrStr sp.displayName (str "Unnamed Space"),
   str "- **Name**: " ++ sp.name,
   str "- **Type**: " ++ jsOrStr sp.spaceType (jsOrStr sp.type (str "Unknown"))]
  ++ (if jsTruthy (spaceDescription sp) then
        [str "- **Description**: " ++ (spaceDescription sp).getD []]
      else [])
  ++ (match sp.membershipCount with
      | some mc =>
          [str "- **Members**: " ++ str (toString (mc.joinedDirectHumanUserCount.getD 0))]
      | none => [])
  ++ (if jsTruthy sp.createTime then
        [str "- **Created**: " ++ fmtTime (sp.createTime.getD [])]
      else [])
  ++ (match sp.threaded with
      | some b => [str "- **Threaded**: " ++ (if b then str "Yes" else str "No")]
      | none => [])
  ++ (match sp.externalUserAllowed with
      | some b =>
          [str "- **External Users Allowed**: " ++ (if b then str "Yes" else str "No")]
      | none => [])

/-- `formatSpace` from formatters.ts, markdown branch (single-space detail view). -/
def formatSpaceText (fmtTime : Str → Str) (sp : Space) : Str :=
  joinLines (spaceLines fmtTime sp)

/-- The per-space lines pushed inside `formatSpacesList`'s loop, including the
trailing blank line; descriptions are clipped via `substring(0, 100)` with an
ellipsis marker when longer than 100 characters. -/
def spaceListBlock (sp : Space) : List Str :=
  [str "## " ++ jsOrStr sp.displayName (str "Unnamed Space"),
   str "- **ID**: \x60" ++ sp.name ++ str "\x60",
   str "- **Type**: " ++ jsOrStr sp.spaceType (jsOrStr sp.type (str "Unknown"))]
  ++ (if jsTruthy (spaceDescription sp) then
        [str "- **Description**: " ++ ((spaceDescription sp).getD []).take 100 ++
           (if 100 < ((spaceDescription sp).getD []).length then str "..." else [])]
      else [])
  ++ [[]]

/-- The header and per-space blocks of `formatSpacesList` (everything pushed
before the optional pagination footer). -/
def spacesBodyLines (spaces : List Space) : List Str :=
  [str "# Spaces (" ++ str (toString spaces.length) ++ str " results)", []]
  ++ (spaces.map spaceListBlock).flatten

/-- All lines pushed by `formatSpacesList` (markdown branch), footer included. -/
def spacesListLines (spaces : List Space) (hasMore : Bool) (nextPageToken : Option Str) :
    List Str :=
  spacesBodyLines spaces ++
    (if hasMore && jsTruthy nextPageToken then
      [str "---", footerLine (nextPageToken.getD [])]
    else [])

/-- `formatSpacesList` from formatters.ts, markdown branch. -/
def formatSpacesListText (spaces : List Space) (hasMore : Bool)
    (nextPageToken : Option Str) : Str :=
  if spaces.length = 0 then str "No spaces found."
  else truncateResponse (joinLines (spacesListLines spaces hasMore nextPageToken))

/-- The per-message lines pushed inside `formatMessagesList`'s loop. -/
def messageListBlock (fmtTime : Str → Str) (msg : Message) : List Str :=
  [str "### " ++
     jsOrStr (msg.sender.bind User.displayName)
       (jsOrStr (msg.sender.map User.name) (str "Unknown")) ++
     str " - " ++
     (if jsTruthy msg.createTime then fmtTime (msg.createTime.getD []) else []),
   str "- **ID**: \x60" ++ msg.name ++ str "\x60",
   str "- **Content**: " ++
     (if jsTruthy msg.text then
        (msg.text.getD []).take 100 ++
          (if 100 < (msg.text.getD []).length then str "..." else [])
      else str "[No text content]"),
   []]

/-- The header and per-message blocks of `formatMessagesList`. -/
def messagesBodyLines (fmtTime : Str → Str) (messages : List Message) : List Str :=
  [str "# Messages (" ++ str (toString messages.length) ++ str " results)", []]
  ++ (messages.map (messageListBlock fmtTime)).flatten

/-- All lines pushed by `formatMessagesList` (markdown branch), footer included. -/
def messagesListLines (fmtTime : Str → Str) (messages : List Message) (hasMore : Bool)
    (nextPageToken : Option Str) : List Str :=
  messagesBodyLines fmtTime messages ++
    (if hasMore && jsTruthy nextPageToken then
      [str "---", footerLine (nextPageToken.getD [])]
    else [])

/-- `formatMessagesList` from formatters.ts, markdown branch. -/
def formatMessagesListText (fmtTime : Str → Str) (messages : List Message)
    (hasMore : Bool) (nextPageToken : Option Str) : Str :=
  if messages.length = 0 then str "No messages found."
  else truncateResponse (joinLines (messagesListLines fmtTime messages hasMore nextPageToken))

/-- The per-member lines pushed inside `formatMembersList`'s loop. -/
def memberListBlock (m : Member) : List Str :=
  [str "## " ++
     jsOrStr (m.member.bind User.displayName)
       (jsOrStr (m.member.map User.name) (str "Unknown")),
   str "- **ID**: \x60" ++ m.name ++ str "\x60",
   str "- **Role**: " ++ jsOrStr m.role (str "Unknown"),
   str "- **State**: " ++ jsOrStr m.state (str "Unknown"),
   []]

/-- The header and per-member blocks of `formatMembersList`. -/
def membersBodyLines (members : List Member) : List Str :=
  [str "# Members (" ++ str (toString members.length) ++ str " results)", []]
  ++ (members.map memberListBlock).flatten

/-- All lines pushed by `formatMembersList` (markdown branch), footer included. -/
def membersListLines (members : List Member) (hasMore : Bool)
    (nextPageToken : Option Str) : List Str :=
  membersBodyLines members ++
    (if hasMore && jsTruthy nextPageToken then
      [str "---", footerLine (nextPageToken.getD [])]
    else [])

/-- `formatMembersList` from formatters.ts, markdown branch. -/
def formatMembersListText (members : List Member) (hasMore : Bool)
    (nextPageToken : Option Str) : Str :=
  if members.length = 0 then str "No members found."
  else truncateResponse (joinLines (membersListLines members hasMore nextPageToken))

/-- The grouping key `reaction.emoji?.unicode || reaction.emoji?.customEmoji?.uid || "?"`. -/
def reactionEmojiKey (r : Reaction) : Str :=
  jsOrStr (r.emoji.bind Emoji.unicode)
    (jsOrStr ((r.emoji.bind Emoji.customEmoji).bind CustomEmoji.uid) (str "?"))

/-- The user label `reaction.user?.displayName || reaction.user?.name || "Unknown"`. -/
def reactionUserName (r : Reaction) : Str :=
  jsOrStr (r.user.bind User.displayName)
    (jsOrStr (r.user.map User.name) (str "Unknown"))

/-- One step of the `Map`-based grouping in `formatReactionsList`: a JS `Map`
iterates keys in insertion order, keeps one entry per key, and
`grouped.get(emoji)!.users.push(user)` appends at the end of that entry. -/
def insertGroup : List (Str × List Str) → Str → Str → List (Str × List Str)
  | [], e, u => [(e, [u])]
  | (k, us) :: rest, e, u =>
      if k = e then (k, us ++ [u]) :: rest
      else (k, us) :: insertGroup rest e u

/-- The emoji grouping loop of `formatReactionsList` (lines 283-293). -/
def groupReactions (reactions : List Reaction) : List (Str × List Str) :=
  reactions.foldl (fun acc r => insertGroup acc (reactionEmojiKey r) (reactionUserName r)) []

/-- The rendered line for one emoji group: `- emoji (n): user1, user2`. -/
def reactionGroupLine (g : Str × List Str) : Str :=
  str "- " ++ g.1 ++ str " (" ++ str (toString g.2.length) ++ str "): " ++
    joinSep (str ", ") g.2

/-- The header and per-group lines of `formatReactionsList` (everything pushed
before the optional pagination footer). -/
def reactionsBodyLines (reactions : List Reaction) : List Str :=
  [str "# Reactions (" ++ str (toString reactions.length) ++ str " results)", []]
  ++ (groupReactions reactions).map reactionGroupLine

/-- All lines pushed by `formatReactionsList` (markdown branch); its footer is
preceded by a blank line rather than the `---` rule the other lists push. -/
def reactionsListLines (reactions : List Reaction) (hasMore : Bool)
    (nextPageToken : Option Str) : List Str :=
  reactionsBodyLines reactions
  ++ (if hasMore && jsTruthy nextPageToken then
      [[], footerLine (nextPageToken.getD [])]
    else [])

/-- `formatReactionsList` from formatters.ts, markdown branch.  Unlike the
space/message/member list formatters, the source returns `lines.join("\n")`
directly, without `truncateResponse`. -/
def formatReactionsListText (reactions : List Reaction) (hasMore : Bool)
    (nextPageToken : Option Str) : Str :=
  if reactions.length = 0 then str "No reactions found."
  else joinLines (reactionsListLines reactions hasMore nextPageToken)

/-- First-occurrence deduplication of a key sequence: the key order a JS `Map`
produces when keys are inserted left to right. -/
def firstOccur (l : List Str) : List Str :=
  l.foldl (fun acc a => if a ∈ acc then acc else acc ++ [a]) []

/-! ## formatTimestamp (formatters.ts lines 341-354)

The source is `try { const date = new Date(timestamp); return
date.toLocaleString("en-US", {...}); } catch { return timestamp; }`.
Under ECMA-262, `new Date(string)` never throws: an unparseable string yields
an Invalid Date (time value NaN).  Under ECMA-402's `Date.prototype.
toLocaleString`, a NaN time value renders as the literal string
"Invalid Date" - again without throwing.  The model makes both facts explicit:
a `JsDate` is either a valid date (abstracted by its "en-US" locale rendering,
supplied by the ambient parser `parse`) or the Invalid Date. -/

/-- A JS `Date` value: valid (carrying its locale rendering) or Invalid Date. -/
inductive JsDate where
  | valid (rendered : String)
  | invalid
deriving DecidableEq

/-- `new Date(s)`: never throws; an unparseable string yields an Invalid Date.
`parse` abstracts the implementation-defined date parser, returning the
"en-US" locale rendering of the parsed date for parseable input. -/
def jsNewDate (parse : String → Option String) (s : String) : JsDate :=
  match parse s with
  | some rendered => .valid rendered
  | none => .invalid

/-- `date.toLocaleString("en-US", {...})`: never throws; an Invalid Date
renders as the literal "Invalid Date". -/
def jsToLocaleString : JsDate → String
  | .valid rendered => rendered
  | .invalid => "Invalid Date"

/-- `formatTimestamp` from formatters.ts.  Since neither `new Date` nor
`toLocaleString` throws, the catch branch that would return `timestamp` is
unreachable and the function is the straight composition. -/
def formatTimestamp (parse : String → Option String) (timestamp : String) : String :=
  jsToLocaleString (jsNewDate parse timestamp)

/-! ## api-client.ts: handleApiError -/

/-- The fields `handleApiError` reads off `error.response`: the HTTP status and
the two upstream message locations `data?.error?.message` and `data?.message`
(absent when the response body lacks them or is not an object). -/
structure HttpErrorResponse where
  status : Nat
  errorMessage : Option String
  message : Option String
deriving DecidableEq

/-- The error values distinguishable by `handleApiError`'s tests. -/
inductive JsError where
  /-- An `AxiosError`: optional HTTP response, optional transport `code`, and
  the error's own `message` (an `AxiosError` is an `Error`). -/
  | axios (response : Option HttpErrorResponse) (code : Option String) (message : String)
  /-- A plain `Error` instance with its `message`. -/
  | err (message : String)
  /-- A thrown non-`Error` value, carried as its `String(error)` conversion. -/
  | other (stringRepr : String)
deriving DecidableEq

/-- JS `a || b` for a possibly-absent string with string fallback
(`""` is falsy). -/
def jsOrElse (a : Option String) (b : String) : String :=
  match a with
  | some v => if v = "" then b else v
  | none => b

/-- `data?.error?.message || data?.message || "Unknown error"` from
api-client.ts line 373. -/
def upstreamMessage (r : HttpErrorResponse) : String :=
  jsOrElse r.errorMessage (jsOrElse r.message "Unknown error")

/-- `handleApiError` from api-client.ts lines 368-403.  The `switch` is
rendered as the equivalent first-match if-chain. -/
def handleApiError : JsError → String
  | .axios (some r) _ _ =>
      let message := upstreamMessage r
      if r.status = 400 then
        "Error: Bad request - " ++ message ++ ". Check your parameters and try again."
      else if r.status = 401 then
        "Error: Authentication failed. Please check your credentials and ensure they have the required permissions."
      else if r.status = 403 then
        "Error: Permission denied - " ++ message ++ ". Ensure the app has the required Chat API scopes."
      else if r.status = 404 then
        "Error: Resource not found - " ++ message ++ ". Check that the space/message/member ID is correct."
      else if r.status = 409 then
        "Error: Conflict - " ++ message ++ ". The resource may already exist or be in an invalid state."
      else if r.status = 429 then
        "Error: Rate limit exceeded. Please wait before making more requests."
      else if r.status = 500 then
        "Error: Google Chat API server error. Please try again later."
      else if r.status = 503 then
        "Error: Google Chat API is temporarily unavailable. Please try again later."
      else
        "Error: API request failed (" ++ toString r.status ++ ") - " ++ message
  | .axios none code message =>
      if code = some "ECONNABORTED" then
        "Error: Request timed out. Please try again."
      else if code = some "ENOTFOUND" ∨ code = some "ECONNREFUSED" then
        "Error: Unable to connect to Google Chat API. Check your network connection."
      else
        "Error: Unexpected error - " ++ message
  | .err message => "Error: Unexpected error - " ++ message
  | .other stringRepr => "Error: Unexpected error - " ++ stringRepr

/-- The upstream-message extraction as the claim words it: the nested
error-message field when it is present (carries a non-empty message - the
source's truthiness test), else the top-level message field when present,
else the literal "Unknown error". -/
def presentMsg : Option String → Option String
  | some v => if v = "" then none else some v
  | none => none

/-- The claim's priority order for the upstream message. -/
def claimedUpstreamMessage (nested top : Option String) : String :=
  match presentMsg nested with
  | some v => v
  | none =>
      match presentMsg top with
      | some v => v
      | none => "Unknown error"

/-! ## api-client.ts: initializeApiClient -/

/-- JS truthiness of a possibly-`undefined` environment variable. -/
def jsTruthyS (a : Option String) : Bool :=
  match a with
  | some v => if v = "" then false else true
  | none => false

/-- The auth client `initializeApiClient` constructs.  `googleAuth` is
`new GoogleAuth(authOptions)`: its `credentials` field carries the parsed
inline `GOOGLE_SERVICE_ACCOUNT_JSON` when the source set
`authOptions.credentials`, and is absent otherwise (in which case the
underlying library reads the file named by `GOOGLE_APPLICATION_CREDENTIALS`).
`oauth2` is `new OAuth2Client()` followed by
`setCredentials({access_token: token})`. -/
inductive AuthClient where
  | googleAuth (credentials : Option String)
  | oauth2 (accessToken : String)
deriving DecidableEq

/-- The observable outcome of `initializeApiClient`: the constructed auth
client, or the thrown error's message. -/
inductive InitResult where
  | ok (client : AuthClient)
  | error (message : String)
deriving DecidableEq

/-- The missing-credential error message from api-client.ts lines 292-297. -/
def missingCredentialsMessage : String :=
  "Authentication required. Set one of:\n  - GOOGLE_APPLICATION_CREDENTIALS: Path to service account JSON file\n  - GOOGLE_SERVICE_ACCOUNT_JSON: Service account JSON as a string\n  - GOOGLE_OAUTH_TOKEN: OAuth2 access token"

/-- `initializeApiClient` from api-client.ts lines 266-298 (the credential
resolution; the subsequent axios transport setup carries no decision logic).
`parseJson` abstracts `JSON.parse`, returning `none` exactly when it would
throw; the parsed credentials object is abstracted by a `String`. -/
def initializeApiClient (parseJson : String → Option String)
    (serviceAccountPath serviceAccountJson oauthToken : Option String) : InitResult :=
  if jsTruthyS serviceAccountPath || jsTruthyS serviceAccountJson then
    if jsTruthyS serviceAccountJson then
      match parseJson (serviceAccountJson.getD "") with
      | some creds => .ok (.googleAuth (some creds))
      | none => .error "Invalid GOOGLE_SERVICE_ACCOUNT_JSON: must be valid JSON"
    else
      .ok (.googleAuth none)
  else if jsTruthyS oauthToken then
    .ok (.oauth2 (oauthToken.getD ""))
  else
    .error missingCredentialsMessage

/-- The spec's three credential strategies (spec section 3). -/
inductive CredentialStrategy where
  | serviceAccountPath
  | serviceAccountInlineJson
  | oauthBearerToken
deriving DecidableEq

/-- The strategy the claim says must be selected: the highest-priority present
source, in the order path, inline JSON, bearer token. -/
def claimedStrategy (path json token : Option String) : Option CredentialStrategy :=
  if jsTruthyS path then some .serviceAccountPath
  else if jsTruthyS json then some .serviceAccountInlineJson
  else if jsTruthyS token then some .oauthBearerToken
  else none

/-- The strategy a successful initialization actually selected: a `GoogleAuth`
without inline credentials reads the file named by the path variable, one with
inline credentials uses them, and `OAuth2Client` uses the bearer token. -/
def selectedStrategy : InitResult → Option CredentialStrategy
  | .ok (.googleAuth none) => some .serviceAccountPath
  | .ok (.googleAuth (some _)) => some .serviceAccountInlineJson
  | .ok (.oauth2 _) => some .oauthBearerToken
  | .error _ => none

/-! ## Tool handlers (spaces.ts, messages.ts)

Each registered tool handler is `async (params) => { try { ...await
makeApiRequest...; return success } catch (error) { return { isError: true,
content: [{type: "text", text: handleApiError(error)}] } } }`.  The dispatch
outcome is the only fallible step, so a handler is embedded as a total
function of the `Except` outcome of `makeApiRequest`.  The handlers are
modelled at `response_format = "markdown"` (the default; the failure branch
does not consult the format). -/

/-- The `structuredContent` payloads of the embedded handlers. -/
inductive Structured where
  | spacesList (count : Nat) (spaces : List Space) (hasMore : Bool)
      (nextPageToken : Option Str)
  | messagesList (count : Nat) (messages : List Message) (hasMore : Bool)
      (nextPageToken : Option Str)
  | spaceEntity (space : Space)
deriving DecidableEq

/-- A tool call's returned result object: the `isError` flag (absent in the
source's success object, i.e. `false`), the `text` contents, and the optional
`structuredContent`. -/
structure ToolResult where
  isError : Bool := false
  content : List Str
  structuredContent : Option Structured := none
deriving DecidableEq

/-- `ListSpacesResponse` from types.ts (the fields the handler reads). -/
structure ListSpacesResponse where
  spaces : Option (List Space)
  nextPageToken : Option Str
deriving DecidableEq

/-- `ListMessagesResponse` from types.ts (the fields the handler reads). -/
structure ListMessagesResponse where
  messages : Option (List Message)
  nextPageToken : Option Str
deriving DecidableEq

/-- The `google_chat_list_spaces` handler (spaces.ts lines 58-92), as a
function of the dispatch outcome. -/
def listSpacesHandler (outcome : Except JsError ListSpacesResponse) : ToolResult :=
  match outcome with
  | .error e =>
      { isError := true, content := [str (handleApiError e)], structuredContent := none }
  | .ok response =>
      let spaces := response.spaces.getD []
      let hasMore := jsTruthy response.nextPageToken
      { content := [formatSpacesListText spaces hasMore response.nextPageToken],
        structuredContent :=
          some (.spacesList spaces.length spaces hasMore response.nextPageToken) }

/-- The `google_chat_list_messages` handler (messages.ts lines 55-91), as a
function of the dispatch outcome. -/
def listMessagesHandler (fmtTime : Str → Str)
    (outcome : Except JsError ListMessagesResponse) : ToolResult :=
  match outcome with
  | .error e =>
      { isError := true, content := [str (handleApiError e)], structuredContent := none }
  | .ok response =>
      let messages := response.messages.getD []
      let hasMore := jsTruthy response.nextPageToken
      { content := [formatMessagesListText fmtTime messages hasMore response.nextPageToken],
        structuredContent :=
          some (.messagesList messages.length messages hasMore response.nextPageToken) }

/-- The optional update fields of `google_chat_update_space`'s input
(`spaceName` itself does not influence the mask). -/
structure UpdateSpaceParams where
  displayName : Option Str
  description : Option Str
  guidelines : Option Str
deriving DecidableEq

/-- The `updateMask` computed by the `google_chat_update_space` handler
(spaces.ts lines 236-254): `displayName` is pushed under a truthiness test,
`spaceDetails.description` and `spaceDetails.guidelines` under
`!== undefined` tests. -/
def updateSpaceMask (p : UpdateSpaceParams) : List Str :=
  (if jsTruthy p.displayName then [str "displayName"] else [])
  ++ (if p.description.isSome then [str "spaceDetails.description"] else [])
  ++ (if p.guidelines.isSome then [str "spaceDetails.guidelines"] else [])

/-- The `google_chat_update_space` handler (spaces.ts lines 234-282): the
empty-mask early return happens before any dispatch; otherwise the PATCH is
issued and its outcome rendered.  The second component records whether an
outbound request was issued. -/
def updateSpaceHandler (fmtTime : Str → Str) (p : UpdateSpaceParams)
    (outcome : Except JsError Space) : ToolResult × Bool :=
  if updateSpaceMask p = [] then
    ({ isError := true,
       content := [str "Error: At least one field must be provided to update."],
       structuredContent := none }, false)
  else
    match outcome with
    | .ok space =>
        ({ content := [str "Space updated successfully!\n\n" ++ formatSpaceText fmtTime space],
           structuredContent := some (.spaceEntity space) }, true)
    | .error e =>
        ({ isError := true, content := [str (handleApiError e)],
           structuredContent := none }, true)

/-! ## Concrete example values used by witnesses and counterexamples -/

/-- A space with a 150-character description, as in the spec's end-to-end
clipping scenario. -/
def demoSpace : Space :=
  { name := str "spaces/AAAA"
    type := none
    spaceType := some (str "SPACE")
    displayName := some (str "Demo")
    spaceDetails := some { description := some (List.replicate 150 'd'), guidelines := none }
    membershipCount := none
    createTime := none
    threaded := none
    externalUserAllowed := none }

/-- A small space used in pagination-footer witnesses. -/
def smallSpace : Space :=
  { name := str "spaces/BBBB"
    type := none
    spaceType := some (str "SPACE")
    displayName := some (str "Team")
    spaceDetails := none
    membershipCount := none
    createTime := none
    threaded := none
    externalUserAllowed := none }

/-- A reaction whose reacting user carries a 26000-character display name;
its list rendering exceeds `CHARACTER_LIMIT`. -/
def hugeReaction : Reaction :=
  { name := str "spaces/S/messages/M/reactions/R"
    user := some { name := str "users/u1", displayName := some (List.replicate 26000 'a'),
                   type := none }
    emoji := some { unicode := some (str "X"), customEmoji := none } }

/-- A small reaction used in witnesses. -/
def smallReaction : Reaction :=
  { name := str "spaces/S/messages/M/reactions/Q"
    user := some { name := str "users/u2", displayName := some (str "Ann"), type := none }
    emoji := some { unicode := some (str "Y"), customEmoji := none } }

/-- A small message used in pagination-footer witnesses. -/
def smallMessage : Message :=
  { name := str "spaces/S/messages/M1"
    sender := some { name := str "users/u3", displayName := some (str "Bea"), type := none }
    createTime := none
    text := some (str "hi") }

/-- A small member used in pagination-footer witnesses. -/
def smallMember : Member :=
  { name := str "spaces/S/members/M2"
    state := some (str "JOINED")
    role := some (str "ROLE_MEMBER")
    member := some { name := str "users/u4", displayName := some (str "Cal"), type := none } }

/-! ## Helper lemmas -/

/-- The truncation notice fits in the 100 characters the cut reserves. -/
theorem truncationNotice_length_le : truncationNotice.length ≤ 100 := by decide

/-- `truncateResponse` never returns more than `CHARACTER_LIMIT` characters. -/
theorem truncateResponse_length_le (t : Str) :
    (truncateResponse t).length ≤ CHARACTER_LIMIT := by
  unfold truncateResponse
  split
  · assumption
  · rw [List.length_append, List.length_take]
    have h1 : truncationNotice.length ≤ 100 := truncationNotice_length_le
    have h2 : min (CHARACTER_LIMIT - 100) t.length ≤ CHARACTER_LIMIT - 100 :=
      Nat.min_le_left _ _
    unfold CHARACTER_LIMIT at *
    omega

/-- Short text passes through `truncateResponse` unchanged. -/
theorem truncateResponse_of_short {t : Str} (h : t.length ≤ CHARACTER_LIMIT) :
    truncateResponse t = t := by
  simp [truncateResponse, h]

/-- Long text is hard-cut and gets the notice appended. -/
theorem truncateResponse_of_long {t : Str} (h : CHARACTER_LIMIT < t.length) :
    truncateResponse t = t.take (CHARACTER_LIMIT - 100) ++ truncationNotice := by
  simp [truncateResponse, Nat.not_le.mpr h]

/-- Joining a line list with two lines appended at the end. -/
theorem joinSep_append_pair (sep : Str) (xs : List Str) (a b : Str) (h : xs ≠ []) :
    joinSep sep (xs ++ [a, b]) = joinSep sep xs ++ sep ++ a ++ sep ++ b := by
  induction xs with
  | nil => exact absurd rfl h
  | cons x xs ih =>
    cases xs with
    | nil => simp [joinSep, List.append_assoc]
    | cons y ys =>
      have hstep := ih (by simp)
      have e1 : joinSep sep ((x :: y :: ys) ++ [a, b])
          = x ++ sep ++ joinSep sep ((y :: ys) ++ [a, b]) := rfl
      have e2 : joinSep sep (x :: y :: ys) = x ++ sep ++ joinSep sep (y :: ys) := rfl
      rw [e1, e2, hstep]
      simp [List.append_assoc]

/-- `insertGroup` grows the total user count by exactly one. -/
theorem insertGroup_sum (acc : List (Str × List Str)) (e u : Str) :
    ((insertGroup acc e u).map (fun g => g.2.length)).sum
      = ((acc.map (fun g => g.2.length)).sum) + 1 := by
  induction acc with
  | nil => simp [insertGroup]
  | cons p rest ih =>
    obtain ⟨k, us⟩ := p
    by_cases hk : k = e
    · simp [insertGroup, hk]
      omega
    · simp [insertGroup, hk, ih]
      omega

/-- `insertGroup` leaves the key sequence unchanged when the key is already
present, and appends it at the end otherwise. -/
theorem insertGroup_keys (acc : List (Str × List Str)) (e u : Str) :
    (insertGroup acc e u).map Prod.fst
      = if e ∈ acc.map Prod.fst then acc.map Prod.fst
        else acc.map Prod.fst ++ [e] := by
  induction acc with
  | nil => simp [insertGroup]
  | cons p rest ih =>
    obtain ⟨k, us⟩ := p
    by_cases hk : k = e
    · subst hk
      simp [insertGroup]
    · have hek : e ≠ k := fun hh => hk hh.symm
      by_cases he : e ∈ rest.map Prod.fst
      · simp [insertGroup, hk, ih, he, hek]
      · simp [insertGroup, hk, ih, he, hek]

/-- Generalized accumulator form of the grouping-loop count invariant. -/
theorem groupLoop_sum (rs : List Reaction) (acc : List (Str × List Str)) :
    ((rs.foldl (fun a r => insertGroup a (reactionEmojiKey r) (reactionUserName r)) acc).map
        (fun g => g.2.length)).sum
      = (acc.map (fun g => g.2.length)).sum + rs.length := by
  induction rs generalizing acc with
  | nil => simp
  | cons r rs ih =>
    simp only [List.foldl_cons, List.length_cons]
    rw [ih, insertGroup_sum]
    omega

/-- Generalized accumulator form of the grouping-loop key-order invariant. -/
theorem groupLoop_keys (rs : List Reaction) (acc : List (Str × List Str)) :
    (rs.foldl (fun a r => insertGroup a (reactionEmojiKey r) (reactionUserName r)) acc).map
        Prod.fst
      = rs.foldl
          (fun ks r => if reactionEmojiKey r ∈ ks then ks else ks ++ [reactionEmojiKey r])
          (acc.map Prod.fst) := by
  induction rs generalizing acc with
  | nil => simp
  | cons r rs ih =>
    simp only [List.foldl_cons]
    rw [ih, insertGroup_keys]

/-- The grouping loop keeps the key sequence duplicate-free. -/
theorem groupLoop_keys_nodup (rs : List Reaction) (acc : List (Str × List Str))
    (h : (acc.map Prod.fst).Nodup) :
    ((rs.foldl (fun a r => insertGroup a (reactionEmojiKey r) (reactionUserName r)) acc).map
        Prod.fst).Nodup := by
  induction rs generalizing acc with
  | nil => exact h
  | cons r rs ih =>
    simp only [List.foldl_cons]
    apply ih
    rw [insertGroup_keys]
    split
    · exact h
    · next hnot =>
        simp [List.nodup_append, h, hnot]

/-- The source's `||`-chain extraction agrees with the claim's priority-order
description of the upstream message. -/
theorem upstreamMessage_eq_claimed (st : Nat) (em tm : Option String) :
    upstreamMessage ⟨st, em, tm⟩ = claimedUpstreamMessage em tm := by
  unfold upstreamMessage claimedUpstreamMessage presentMsg jsOrElse
  cases em with
  | none =>
      cases tm with
      | none => rfl
      | some t => by_cases ht : t = "" <;> simp [ht]
  | some v =>
      by_cases hv : v = ""
      · cases tm with
        | none => simp [hv]
        | some t => by_cases ht : t = "" <;> simp [hv, ht]
      · simp [hv]

/-! ## The claims -/

set_option maxRecDepth 8000 in
/-- Claim C1: the error classifier `handleApiError` is a total deterministic
function of the error value (immediate here, as it is embedded as a Lean
function over the inductive `JsError` covering every discriminable error
shape).  For the eight tabulated HTTP statuses it returns exactly the section
4.4 message class, with the upstream message included for 400, 403, 404, 409
and omitted for 401, 429, 500, 503; any other HTTP status yields the generic
failure naming the status code and upstream message; a timeout
(`ECONNABORTED` without a response) yields the timeout message; an unresolved
host or refused connection (`ENOTFOUND`/`ECONNREFUSED`) yields the
network-failure message; anything else yields the generic unexpected-error
message carrying the raw message.  The upstream message is the nested
`error.message` response field when present (i.e. carrying a non-empty
message, the source's truthiness test), else the top-level `message` field,
else the literal "Unknown error" - stated via `claimedUpstreamMessage`, which
follows the claim's wording. -/
theorem c1_error_classifier_table (st : Nat) (em tm : Option String)
    (code : Option String) (msg : String)
    (hst : st ∉ ([400, 401, 403, 404, 409, 429, 500, 503] : List Nat))
    (hcode : code ≠ some "ECONNABORTED" ∧ code ≠ some "ENOTFOUND" ∧
             code ≠ some "ECONNREFUSED") :
    handleApiError (.axios (some ⟨400, em, tm⟩) code msg)
      = "Error: Bad request - " ++ claimedUpstreamMessage em tm ++
        ". Check your parameters and try again." ∧
    handleApiError (.axios (some ⟨401, em, tm⟩) code msg)
      = "Error: Authentication failed. Please check your credentials and ensure they have the required permissions." ∧
    handleApiError (.axios (some ⟨403, em, tm⟩) code msg)
      = "Error: Permission denied - " ++ claimedUpstreamMessage em tm ++
        ". Ensure the app has the required Chat API scopes." ∧
    handleApiError (.axios (some ⟨404, em, tm⟩) code msg)
      = "Error: Resource not found - " ++ claimedUpstreamMessage em tm ++
        ". Check that the space/message/member ID is correct." ∧
    handleApiError (.axios (some ⟨409, em, tm⟩) code msg)
      = "Error: Conflict - " ++ claimedUpstreamMessage em tm ++
        ". The resource may already exist or be in an invalid state." ∧
    handleApiError (.axios (some ⟨429, em, tm⟩) code msg)
      = "Error: Rate limit exceeded. Please wait before making more requests." ∧
    handleApiError (.axios (some ⟨500, em, tm⟩) code msg)
      = "Error: Google Chat API server error. Please try again later." ∧
    handleApiError (.axios (some ⟨503, em, tm⟩) code msg)
      = "Error: Google Chat API is temporarily unavailable. Please try again later." ∧
    handleApiError (.axios (some ⟨st, em, tm⟩) code msg)
      = "Error: API request failed (" ++ toString st ++ ") - " ++
        claimedUpstreamMessage em tm ∧
    handleApiError (.axios none (some "ECONNABORTED") msg)
      = "Error: Request timed out. Please try again." ∧
    handleApiError (.axios none (some "ENOTFOUND") msg)
      = "Error: Unable to connect to Google Chat API. Check your network connection." ∧
    handleApiError (.axios none (some "ECONNREFUSED") msg)
      = "Error: Unable to connect to Google Chat API. Check your network connection." ∧
    handleApiError (.axios none code msg) = "Error: Unexpected error - " ++ msg ∧
    handleApiError (.err msg) = "Error: Unexpected error - " ++ msg ∧
    handleApiError (.other msg) = "Error: Unexpected error - " ++ msg := by
  obtain ⟨hc1, hc2, hc3⟩ := hcode
  simp only [List.mem_cons, List.mem_singleton, not_or] at hst
  obtain ⟨h400, h401, h403, h404, h409, h429, h500, h503⟩ := hst
  refine ⟨?_, ?_, ?_, ?_, ?_, ?_, ?_, ?_, ?_, ?_, ?_, ?_, ?_, ?_, ?_⟩ <;>
    simp [handleApiError, upstreamMessage_eq_claimed,
      h400, h401, h403, h404, h409, h429, h500, h503, hc1, hc2, hc3]

/-- Witness for C1 at a concrete input: status 418 with a nested upstream
message falls into the generic-failure class. -/
theorem c1_error_classifier_table_witness :
    handleApiError (.axios (some ⟨418, some "boom", none⟩) (some "EOTHER") "m")
      = "Error: API request failed (418) - boom" := by
  have h := (c1_error_classifier_table 418 (some "boom") none (some "EOTHER") "m"
      (by decide) (by decide)).2.2.2.2.2.2.2.2.1
  rw [h]
  rfl

/-- Claim C2 (code bug): the claim says an un-parseable timestamp renders as
the original input string.  The source wraps the body in try/catch intending
exactly that, but `new Date("not-a-date")` does not throw - it yields an
Invalid Date, which `toLocaleString` renders as the literal "Invalid Date" -
so the catch is unreachable and the raw string is never returned.  Stated at
the failing input with the parser that rejects every string. -/
theorem c2_timestamp_code_bug :
    formatTimestamp (fun _ => none) "not-a-date" = "Invalid Date" ∧
    "Invalid Date" ≠ "not-a-date" := by
  exact ⟨rfl, by decide⟩

/-- Claim C3: text longer than `CHARACTER_LIMIT` (25,000) is returned as the
hard cut to `CHARACTER_LIMIT - 100` characters followed by the fixed
truncation notice, with total length at most `CHARACTER_LIMIT`; text within
the limit is returned unchanged; and re-rendering is byte-identical (the
renderer is a pure function of its input - the embedding has no state, so
determinism is stated as the trivially reflexive third conjunct over the
collection renderer). -/
theorem c3_truncation_policy (text : Str) :
    (CHARACTER_LIMIT < text.length →
        truncateResponse text = text.take (CHARACTER_LIMIT - 100) ++ truncationNotice ∧
        (truncateResponse text).length ≤ CHARACTER_LIMIT) ∧
    (text.length ≤ CHARACTER_LIMIT → truncateResponse text = text) ∧
    (∀ (spaces : List Space) (hasMore : Bool) (tok : Option Str),
        formatSpacesListText spaces hasMore tok
          = formatSpacesListText spaces hasMore tok) := by
  exact ⟨fun h => ⟨truncateResponse_of_long h, truncateResponse_length_le text⟩,
    fun h => truncateResponse_of_short h,
    fun _ _ _ => rfl⟩

/-- Witness for C3 at a concrete 25,001-character text. -/
theorem c3_truncation_policy_witness :
    truncateResponse (List.replicate 25001 'a')
      = (List.replicate 25001 'a').take (CHARACTER_LIMIT - 100) ++ truncationNotice ∧
    (truncateResponse (List.replicate 25001 'a')).length ≤ CHARACTER_LIMIT := by
  exact (c3_truncation_policy (List.replicate 25001 'a')).1
    (by rw [List.length_replicate]; norm_num [CHARACTER_LIMIT])

/-- Counterexample to claim C4 as stated: the reaction-list rendering is
returned by the source without `truncateResponse` (formatters.ts line 304),
so a single reaction whose user display name has 26,000 characters produces a
TEXT output longer than the 25,000-character ceiling. -/
theorem c4_reactions_exceed_limit :
    ¬ (formatReactionsListText [hugeReaction] false none).length ≤ CHARACTER_LIMIT := by
  have h1 : formatReactionsListText [hugeReaction] false none
      = str "# Reactions (1 results)\n\n- X (1): " ++ List.replicate 26000 'a' := rfl
  have h2 : (str "# Reactions (1 results)\n\n- X (1): ").length = 34 := rfl
  rw [h1, List.length_append, h2, List.length_replicate]
  norm_num [CHARACTER_LIMIT]

/-- Claim C4 (amended): the global cut rule is applied to the space, message,
and member TEXT-mode list renderings before they are returned, so those
outputs never exceed the 25,000-character ceiling; the reaction-list
rendering, however, is returned as its assembled line join without the cut
rule (and can therefore exceed the ceiling, see the counterexample). -/
theorem c4_truncation_coverage (fmtTime : Str → Str) (spaces : List Space)
    (messages : List Message) (members : List Member) (reactions : List Reaction)
    (hasMore : Bool) (tok : Option Str) :
    (formatSpacesListText spaces hasMore tok).length ≤ CHARACTER_LIMIT ∧
    (formatMessagesListText fmtTime messages hasMore tok).length ≤ CHARACTER_LIMIT ∧
    (formatMembersListText members hasMore tok).length ≤ CHARACTER_LIMIT ∧
    (reactions.length ≠ 0 →
        formatReactionsListText reactions hasMore tok
          = joinLines (reactionsListLines reactions hasMore tok)) := by
  refine ⟨?_, ?_, ?_, fun h => ?_⟩
  · unfold formatSpacesListText
    split
    · decide
    · exact truncateResponse_length_le _
  · unfold formatMessagesListText
    split
    · decide
    · exact truncateResponse_length_le _
  · unfold formatMembersListText
    split
    · decide
    · exact truncateResponse_length_le _
  · simp [formatReactionsListText, h]

/-- Witness for C4's amended claim at concrete inputs: a one-element reaction
list comes back as the plain line join, and the bounds hold at the empty
collections. -/
theorem c4_truncation_coverage_witness :
    formatReactionsListText [smallReaction] false none
      = joinLines (reactionsListLines [smallReaction] false none) ∧
    (formatSpacesListText [] false none).length ≤ CHARACTER_LIMIT := by
  exact ⟨(c4_truncation_coverage id [] [] [] [smallReaction] false none).2.2.2
      (by decide),
    (c4_truncation_coverage id [] [] [] [smallReaction] false none).1⟩

/-- Counterexample to claim C5 as stated: with both the filesystem-path
source and the inline-JSON source present, the source code sets
`authOptions.credentials` from the inline JSON, so the selected strategy is
the inline-JSON strategy, not the claimed highest-priority path strategy. -/
theorem c5_priority_counterexample :
    selectedStrategy (initializeApiClient (fun j => some j)
        (some "/creds/sa.json") (some "svc-json") none)
      = some CredentialStrategy.serviceAccountInlineJson ∧
    claimedStrategy (some "/creds/sa.json") (some "svc-json") none
      = some CredentialStrategy.serviceAccountPath ∧
    CredentialStrategy.serviceAccountInlineJson ≠ CredentialStrategy.serviceAccountPath := by
  exact ⟨rfl, rfl, by decide⟩

set_option maxRecDepth 20000 in
/-- Claim C5 (amended): a present (non-empty) inline credential payload takes
precedence over the filesystem-path reference - when both are set the inline
JSON supplies the credentials, and an unparseable inline JSON fails
initialization with the distinct invalid-JSON configuration error even if the
path is also set; with no inline payload, a present path selects the
path-based service-account strategy; with neither, a present bearer token
selects the OAuth strategy; and when all three are absent, initialization
fails with the error message naming all three options. -/
theorem c5_credential_resolution (parseJson : String → Option String)
    (path json token : Option String) :
    (jsTruthyS json = true →
        (∀ creds, parseJson (json.getD "") = some creds →
            initializeApiClient parseJson path json token
              = .ok (.googleAuth (some creds))) ∧
        (parseJson (json.getD "") = none →
            initializeApiClient parseJson path json token
              = .error "Invalid GOOGLE_SERVICE_ACCOUNT_JSON: must be valid JSON")) ∧
    (jsTruthyS json = false → jsTruthyS path = true →
        initializeApiClient parseJson path json token = .ok (.googleAuth none)) ∧
    (jsTruthyS json = false → jsTruthyS path = false → jsTruthyS token = true →
        initializeApiClient parseJson path json token = .ok (.oauth2 (token.getD ""))) ∧
    (jsTruthyS json = false → jsTruthyS path = false → jsTruthyS token = false →
        initializeApiClient parseJson path json token = .error missingCredentialsMessage) ∧
    (str "GOOGLE_APPLICATION_CREDENTIALS" <:+: str missingCredentialsMessage ∧
     str "GOOGLE_SERVICE_ACCOUNT_JSON" <:+: str missingCredentialsMessage ∧
     str "GOOGLE_OAUTH_TOKEN" <:+: str missingCredentialsMessage) := by
  refine ⟨fun hj => ⟨fun creds hp => ?_, fun hp => ?_⟩,
    fun hj hp => ?_, fun hj hp ht => ?_, fun hj hp ht => ?_, by decide⟩
  · simp [initializeApiClient, hj, hp]
  · simp [initializeApiClient, hj, hp]
  · simp [initializeApiClient, hj, hp]
  · simp [initializeApiClient, hj, hp, ht]
  · simp [initializeApiClient, hj, hp, ht]

/-- Witness for C5's amended claim: with both service-account sources set and
a parseable payload, the inline JSON supplies the credentials. -/
theorem c5_credential_resolution_witness :
    initializeApiClient (fun j => some j) (some "/creds/sa.json") (some "svc-json") none
      = .ok (.googleAuth (some "svc-json")) := by
  exact ((c5_credential_resolution (fun j => some j) (some "/creds/sa.json")
      (some "svc-json") none).1 rfl).1 "svc-json" rfl

/-- Counterexample to claim C6 as stated: an empty collection takes the early
`"No spaces found."` return, which precedes the footer logic, so a collection
with continuation token "TOK123" renders no footer and the token appears
nowhere in the output. -/
theorem c6_footer_counterexample :
    formatSpacesListText [] true (some (str "TOK123")) = str "No spaces found." ∧
    ¬ str "TOK123" <:+: str "No spaces found." := by
  exact ⟨rfl, by decide⟩

/-- A list of the form `body ++ [a, footer]` joins to text ending in the
footer line. -/
theorem join_footer_tail (body : List Str) (a tok : Str) (hbody : body ≠ []) :
    joinLines (body ++ [a, footerLine tok])
      = (joinLines body ++ str "\n" ++ a ++ str "\n") ++ footerLine tok := by
  unfold joinLines
  rw [joinSep_append_pair _ _ _ _ hbody]

/-- The same tail shape survives `truncateResponse` when the joined text is
within the limit. -/
theorem truncate_join_footer_tail (body : List Str) (a tok : Str) (hbody : body ≠ [])
    (hlen : (joinLines (body ++ [a, footerLine tok])).length ≤ CHARACTER_LIMIT) :
    truncateResponse (joinLines (body ++ [a, footerLine tok]))
      = (joinLines body ++ str "\n" ++ a ++ str "\n") ++ footerLine tok := by
  rw [truncateResponse_of_short hlen, join_footer_tail _ _ _ hbody]

/-- Claim C6 (amended): for every non-empty collection rendered in TEXT mode
(space, message, member, and reaction lists alike) whose assembled text does
not exceed the truncation ceiling (the reaction list is never truncated, so
it needs no ceiling proviso), a present and non-empty continuation token
(hasMore true) makes the output end with the footer line carrying the literal
token string; and whenever the token is absent or empty, the footer lines are
not appended at all - the output is exactly the rendering of the footer-free
body. -/
theorem c6_pagination_footer (spaces : List Space) (messages : List Message)
    (members : List Member) (reactions : List Reaction) (fmtTime : Str → Str)
    (tok : Str) (hasMore : Bool) (htok : tok ≠ []) :
    (spaces ≠ [] →
        (joinLines (spacesListLines spaces true (some tok))).length ≤ CHARACTER_LIMIT →
        ∃ p, formatSpacesListText spaces true (some tok) = p ++ footerLine tok) ∧
    (messages ≠ [] →
        (joinLines (messagesListLines fmtTime messages true (some tok))).length
            ≤ CHARACTER_LIMIT →
        ∃ p, formatMessagesListText fmtTime messages true (some tok)
            = p ++ footerLine tok) ∧
    (members ≠ [] →
        (joinLines (membersListLines members true (some tok))).length ≤ CHARACTER_LIMIT →
        ∃ p, formatMembersListText members true (some tok) = p ++ footerLine tok) ∧
    (reactions ≠ [] →
        ∃ p, formatReactionsListText reactions true (some tok) = p ++ footerLine tok) ∧
    tok <:+: footerLine tok ∧
    (∀ t', jsTruthy t' = false →
        (spaces ≠ [] → formatSpacesListText spaces hasMore t'
            = truncateResponse (joinLines (spacesBodyLines spaces))) ∧
        (messages ≠ [] → formatMessagesListText fmtTime messages hasMore t'
            = truncateResponse (joinLines (messagesBodyLines fmtTime messages))) ∧
        (members ≠ [] → formatMembersListText members hasMore t'
            = truncateResponse (joinLines (membersBodyLines members))) ∧
        (reactions ≠ [] → formatReactionsListText reactions hasMore t'
            = joinLines (reactionsBodyLines reactions))) := by
  have htr : jsTruthy (some tok) = true := by simp [jsTruthy, htok]
  refine ⟨fun hne hlen => ?_, fun hne hlen => ?_, fun hne hlen => ?_, fun hne => ?_,
    ⟨str "*More results available. Use pageToken: \x60", str "\x60*", rfl⟩,
    fun t' ht' => ⟨fun hne => ?_, fun hne => ?_, fun hne => ?_, fun hne => ?_⟩⟩
  · have hlen0 : spaces.length ≠ 0 := by simpa [List.length_eq_zero] using hne
    have hlines : spacesListLines spaces true (some tok)
        = spacesBodyLines spaces ++ [str "---", footerLine tok] := by
      simp [spacesListLines, htr]
    rw [hlines] at hlen
    refine ⟨joinLines (spacesBodyLines spaces) ++ str "\n" ++ str "---" ++ str "\n", ?_⟩
    have hform : formatSpacesListText spaces true (some tok)
        = truncateResponse (joinLines (spacesListLines spaces true (some tok))) := by
      simp [formatSpacesListText, hlen0]
    rw [hform, hlines, truncate_join_footer_tail _ _ _ (by simp [spacesBodyLines]) hlen]
  · have hlen0 : messages.length ≠ 0 := by simpa [List.length_eq_zero] using hne
    have hlines : messagesListLines fmtTime messages true (some tok)
        = messagesBodyLines fmtTime messages ++ [str "---", footerLine tok] := by
      simp [messagesListLines, htr]
    rw [hlines] at hlen
    refine ⟨joinLines (messagesBodyLines fmtTime messages) ++ str "\n" ++ str "---" ++
      str "\n", ?_⟩
    have hform : formatMessagesListText fmtTime messages true (some tok)
        = truncateResponse (joinLines (messagesListLines fmtTime messages true (some tok))) := by
      simp [formatMessagesListText, hlen0]
    rw [hform, hlines,
      truncate_join_footer_tail _ _ _ (by simp [messagesBodyLines]) hlen]
  · have hlen0 : members.length ≠ 0 := by simpa [List.length_eq_zero] using hne
    have hlines : membersListLines members true (some tok)
        = membersBodyLines members ++ [str "---", footerLine tok] := by
      simp [membersListLines, htr]
    rw [hlines] at hlen
    refine ⟨joinLines (membersBodyLines members) ++ str "\n" ++ str "---" ++ str "\n", ?_⟩
    have hform : formatMembersListText members true (some tok)
        = truncateResponse (joinLines (membersListLines members true (some tok))) := by
      simp [formatMembersListText, hlen0]
    rw [hform, hlines, truncate_join_footer_tail _ _ _ (by simp [membersBodyLines]) hlen]
  · have hlen0 : reactions.length ≠ 0 := by simpa [List.length_eq_zero] using hne
    have hlines : reactionsListLines reactions true (some tok)
        = reactionsBodyLines reactions ++ [([] : Str), footerLine tok] := by
      simp [reactionsListLines, htr]
    refine ⟨joinLines (reactionsBodyLines reactions) ++ str "\n" ++ ([] : Str) ++
      str "\n", ?_⟩
    have hform : formatReactionsListText reactions true (some tok)
        = joinLines (reactionsListLines reactions true (some tok)) := by
      simp [formatReactionsListText, hlen0]
    rw [hform, hlines, join_footer_tail _ _ _ (by simp [reactionsBodyLines])]
  · have hlen0 : spaces.length ≠ 0 := by simpa [List.length_eq_zero] using hne
    have hlines2 : spacesListLines spaces hasMore t' = spacesBodyLines spaces := by
      simp [spacesListLines, ht']
    simp [formatSpacesListText, hlen0, hlines2]
  · have hlen0 : messages.length ≠ 0 := by simpa [List.length_eq_zero] using hne
    have hlines2 : messagesListLines fmtTime messages hasMore t'
        = messagesBodyLines fmtTime messages := by
      simp [messagesListLines, ht']
    simp [formatMessagesListText, hlen0, hlines2]
  · have hlen0 : members.length ≠ 0 := by simpa [List.length_eq_zero] using hne
    have hlines2 : membersListLines members hasMore t' = membersBodyLines members := by
      simp [membersListLines, ht']
    simp [formatMembersListText, hlen0, hlines2]
  · have hlen0 : reactions.length ≠ 0 := by simpa [List.length_eq_zero] using hne
    have hlines2 : reactionsListLines reactions hasMore t'
        = reactionsBodyLines reactions := by
      simp [reactionsListLines, ht']
    simp [formatReactionsListText, hlen0, hlines2]

set_option maxRecDepth 80000 in
/-- Witness for C6's amended claim: each of the four collection renderers at a
one-element collection with token "TOK123", plus the token containment in the
footer line. -/
theorem c6_pagination_footer_witness :
    (∃ p, formatSpacesListText [smallSpace] true (some (str "TOK123"))
        = p ++ footerLine (str "TOK123")) ∧
    (∃ p, formatMessagesListText id [smallMessage] true (some (str "TOK123"))
        = p ++ footerLine (str "TOK123")) ∧
    (∃ p, formatMembersListText [smallMember] true (some (str "TOK123"))
        = p ++ footerLine (str "TOK123")) ∧
    (∃ p, formatReactionsListText [smallReaction] true (some (str "TOK123"))
        = p ++ footerLine (str "TOK123")) ∧
    str "TOK123" <:+: footerLine (str "TOK123") := by
  have h := c6_pagination_footer [smallSpace] [smallMessage] [smallMember]
    [smallReaction] id (str "TOK123") false (by decide)
  exact ⟨h.1 (by simp) (by decide), h.2.1 (by simp) (by decide),
    h.2.2.1 (by simp) (by decide), h.2.2.2.1 (by simp), h.2.2.2.2.1⟩

/-- Claim C7: a space description longer than 100 characters is shown in the
TEXT list view clipped to its first 100 characters plus an ellipsis, while
the single-space detail view shows it in full; a description of at most 100
characters is shown in full in both views. -/
theorem c7_description_clipping (sp : Space) (dtl : SpaceDetails) (desc : Str)
    (fmtTime : Str → Str) (hd : sp.spaceDetails = some dtl)
    (hdesc : dtl.description = some desc) (hne : desc ≠ []) :
    (100 < desc.length →
        (str "- **Description**: " ++ desc.take 100 ++ str "...") ∈ spaceListBlock sp ∧
        (str "- **Description**: " ++ desc) ∈ spaceLines fmtTime sp) ∧
    (desc.length ≤ 100 →
        (str "- **Description**: " ++ desc) ∈ spaceListBlock sp ∧
        (str "- **Description**: " ++ desc) ∈ spaceLines fmtTime sp) := by
  have hsd : spaceDescription sp = some desc := by simp [spaceDescription, hd, hdesc]
  have htr : jsTruthy (some desc) = true := by simp [jsTruthy, hne]
  constructor
  · intro h
    constructor
    · simp [spaceListBlock, hsd, htr, h]
    · simp [spaceLines, hsd, htr]
  · intro h
    have htake : desc.take 100 = desc := List.take_of_length_le h
    constructor
    · simp [spaceListBlock, hsd, htr, Nat.not_lt.mpr h, htake]
    · simp [spaceLines, hsd, htr]

/-- Witness for C7 at the 150-character description of `demoSpace`. -/
theorem c7_description_clipping_witness :
    (str "- **Description**: " ++ List.replicate 100 'd' ++ str "...")
        ∈ spaceListBlock demoSpace ∧
    (str "- **Description**: " ++ List.replicate 150 'd') ∈ spaceLines id demoSpace := by
  have h := (c7_description_clipping demoSpace
      { description := some (List.replicate 150 'd'), guidelines := none }
      (List.replicate 150 'd') id rfl rfl (by simp)).1
    (by rw [List.length_replicate]; norm_num)
  have htake : (List.replicate 150 'd').take 100 = List.replicate 100 'd' := by
    rw [List.take_replicate]
    norm_num
  rw [htake] at h
  exact h

/-- Claim C8: a failing tool invocation returns (rather than throws) a result
flagged `isError` whose content is exactly the classified text, with no
structured data on the failure path.  The handlers are embedded as total Lean
functions of the dispatch outcome, so a failing call cannot crash: it always
produces this result object. -/
theorem c8_failure_result (e : JsError) (fmtTime : Str → Str) :
    listSpacesHandler (.error e)
      = { isError := true, content := [str (handleApiError e)],
          structuredContent := none } ∧
    listMessagesHandler fmtTime (.error e)
      = { isError := true, content := [str (handleApiError e)],
          structuredContent := none } :=
  ⟨rfl, rfl⟩

/-- Claim C9: when none of displayName, description, guidelines is supplied,
the computed field mask is empty and `google_chat_update_space` returns the
fixed error result before any outbound request is issued (the second
component of the handler pair records that no request happened). -/
theorem c9_update_space_empty_mask (fmtTime : Str → Str)
    (outcome : Except JsError Space) :
    updateSpaceHandler fmtTime ⟨none, none, none⟩ outcome
      = ({ isError := true,
           content := [str "Error: At least one field must be provided to update."],
           structuredContent := none }, false) ∧
    updateSpaceMask ⟨none, none, none⟩ = [] :=
  ⟨rfl, rfl⟩

/-- Claim C10: the reaction grouping gives every input reaction exactly one
user entry in exactly one emoji group, so the per-group user counts sum to
the number of input reactions; the group keys are duplicate-free and appear
in order of each emoji key's first occurrence in the input. -/
theorem c10_reaction_grouping (rs : List Reaction) :
    ((groupReactions rs).map (fun g => g.2.length)).sum = rs.length ∧
    ((groupReactions rs).map Prod.fst).Nodup ∧
    (groupReactions rs).map Prod.fst = firstOccur (rs.map reactionEmojiKey) := by
  refine ⟨?_, ?_, ?_⟩
  · simpa using groupLoop_sum rs []
  · simpa using groupLoop_keys_nodup rs [] (by simp)
  · rw [groupReactions, groupLoop_keys, firstOccur, List.foldl_map]
    rfl

end GoogleChat
